import Mathlib

/-!
Verification development for the EdgeCV4Safety speed controller
(`src/SpeedControllerUDP.py`, `src/udp_listener.py`).

The Python code is shallowly embedded: Python floats become the `PyFloat`
type (exact rationals extended with `nan`, `inf`, `ninf`, with Python's
comparison semantics, under which every comparison involving `nan` is
false); the global `distance_queue` (a FIFO `queue.Queue`) becomes a
`List PyFloat`; the RTDE cyclic loop, the connection/handshake sequence
and the outer reconnect loop become explicit step functions producing
event and wait traces.
-/

/-- Model of a Python `float` value: an exact rational, or one of the
special values `nan`, `+inf`, `-inf`.  (Real doubles are binary64; the
rational model is exact on every literal this program manipulates and
preserves all order comparisons used by it.) -/
inductive PyFloat where
  | nan : PyFloat
  | inf : PyFloat
  | ninf : PyFloat
  | val : ℚ → PyFloat
deriving DecidableEq, Repr

namespace PyFloat

/-- Python `<` on floats: any comparison with `nan` is `False`. -/
def lt : PyFloat → PyFloat → Bool
  | nan, _ => false
  | _, nan => false
  | val a, val b => decide (a < b)
  | val _, inf => true
  | val _, ninf => false
  | inf, _ => false
  | ninf, ninf => false
  | ninf, _ => true

/-- Python `<=` on floats: any comparison with `nan` is `False`. -/
def le : PyFloat → PyFloat → Bool
  | nan, _ => false
  | _, nan => false
  | val a, val b => decide (a ≤ b)
  | val _, inf => true
  | val _, ninf => false
  | inf, inf => true
  | inf, _ => false
  | ninf, _ => true

/-- Whether the value is the float `nan`. -/
def isNan : PyFloat → Bool
  | nan => true
  | _ => false

end PyFloat

/-! ## Speed thresholds (`SpeedControllerUDP.py` lines 27–31) -/

def VELOCITY_THRESHOLD_0_5M : ℚ := 0
def VELOCITY_THRESHOLD_1M : ℚ := 3/10
def VELOCITY_2M_THRESHOLD : ℚ := 7/10
def VELOCITY_3M_THRESHOLD : ℚ := 1
def VELOCITY_OVER_3M_THRESHOLD : ℚ := 1

/-- Function `calculate_speed_fraction` (`SpeedControllerUDP.py` lines 43–58):
the banded distance→throttle table, translated branch for branch.
Python's chained `1 <= distance < 2` is `1 <= distance and distance < 2`. -/
def calculate_speed_fraction (distance : PyFloat) : ℚ :=
  if distance.lt (.val 0) then VELOCITY_OVER_3M_THRESHOLD
  else if distance.lt (.val 1) then VELOCITY_THRESHOLD_0_5M
  else if (PyFloat.le (.val 1) distance) && distance.lt (.val 2) then VELOCITY_THRESHOLD_1M
  else if (PyFloat.le (.val 2) distance) && distance.lt (.val 3) then VELOCITY_2M_THRESHOLD
  else if (PyFloat.le (.val 3) distance) && distance.lt (.val 4) then VELOCITY_3M_THRESHOLD
  else VELOCITY_OVER_3M_THRESHOLD

/-- Which branch of the `if`/`elif` chain of `calculate_speed_fraction`
fires for a given input: `0` is the `distance < 0` branch, `1` the
`distance < 1` branch, …, `5` the final `else` branch. -/
def speed_fraction_branch (distance : PyFloat) : Nat :=
  if distance.lt (.val 0) then 0
  else if distance.lt (.val 1) then 1
  else if (PyFloat.le (.val 1) distance) && distance.lt (.val 2) then 2
  else if (PyFloat.le (.val 2) distance) && distance.lt (.val 3) then 3
  else if (PyFloat.le (.val 3) distance) && distance.lt (.val 4) then 4
  else 5

/-! ## The distance queue (`SpeedControllerUDP.py` line 41, 256, 139–145)

`distance_queue = Queue()` is an unbounded FIFO.  The producer (the
`main` read loop, line 256) calls `distance_queue.put(...)` for every
parsed line; the consumer (the RTDE thread, lines 141–145) drains the
whole queue, keeping only the last value.  We model the queue contents
as a `List PyFloat`, front first. -/

/-- Model of `distance_queue.put(v)` (line 256): a FIFO put appends at the back. -/
def publish (q : List PyFloat) (v : PyFloat) : List PyFloat := q ++ [v]

/-- The drain loop of the RTDE thread (lines 141–142):
`while not distance_queue.empty(): current_distance = get_nowait()`.
Returns the final value of `current_distance`. -/
def drainLoop : List PyFloat → PyFloat → PyFloat
  | [], current => current
  | d :: rest, _ => drainLoop rest d

/-- One consume of the Freshness Channel: the drain loop empties the
queue and leaves `current_distance` at the last queued value (or at its
previous value when the queue was empty). -/
def consume_latest (q : List PyFloat) (previous : PyFloat) :
    List PyFloat × PyFloat :=
  ([], drainLoop q previous)

/-! ## The RTDE cyclic exchange loop (`SpeedControllerUDP.py` lines 136–175)

Per cycle, when a state packet is received: drain the queue into
`current_distance`, compute the fraction, and send it iff
`input_data and hasattr(input_data, 'speed_slider_fraction')` holds and
the fraction differs from `previous_speed_fraction` (lines 151–156).
After a successful handshake `input_data` is always truthy (a falsy
result raises at line 106), so the residual configuration-dependent
part of the guard is whether the recipe declares
`speed_slider_fraction`; it appears below as `hasFraction`. -/

/-- The RTDE thread's mutable locals (lines 66–67 for the initial
values) together with the queue contents it drains. -/
structure ControllerState where
  current_distance : PyFloat
  previous_speed_fraction : ℚ
  queue : List PyFloat
deriving DecidableEq, Repr

/-- Initial values: `current_distance = -1.0`,
`previous_speed_fraction = -1.0`, empty queue (lines 66–67, 41). -/
def initialControllerState : ControllerState :=
  { current_distance := .val (-1), previous_speed_fraction := -1, queue := [] }

/-- One iteration of the cyclic loop body (lines 137–175), given whether
a state packet was received (`state` truthy) and whether the input
recipe declares `speed_slider_fraction`.  Returns the new state and
whether `con.send` was called this cycle. -/
def rtdeCycle (hasFraction : Bool) (s : ControllerState)
    (packetReceived : Bool) : ControllerState × Bool :=
  if packetReceived then
    let d := drainLoop s.queue s.current_distance
    let f := calculate_speed_fraction d
    if hasFraction = true ∧ f ≠ s.previous_speed_fraction then
      ({ current_distance := d, previous_speed_fraction := f, queue := [] }, true)
    else
      ({ current_distance := d,
         previous_speed_fraction := s.previous_speed_fraction, queue := [] }, false)
  else (s, false)

/-- One cycle whose input is the pair (packet received?, values the
producer put into the queue since the previous cycle, in order). -/
def cycleWithInput (hf : Bool) (s : ControllerState)
    (inp : Bool × List PyFloat) : ControllerState × Bool :=
  rtdeCycle hf { s with queue := s.queue ++ inp.2 } inp.1

/-- Run a sequence of cycles, collecting the per-cycle send flags. -/
def runCycles (hf : Bool) (s : ControllerState) :
    List (Bool × List PyFloat) → ControllerState × List Bool
  | [] => (s, [])
  | inp :: rest =>
      let r := cycleWithInput hf s inp
      let rr := runCycles hf r.1 rest
      (rr.1, r.2 :: rr.2)

/-! ## Connection, handshake and the outer reconnect loop
(`SpeedControllerUDP.py` lines 60–199)

The RTDE library (`con.connect`, `send_input_setup`, …) is external; an
`RtdeEnv` records the outcome each of its calls would report during one
iteration of the outer loop.  The iteration itself is embedded as a
function from the environment to a trace of protocol events and of the
fixed `time.sleep` waits it performs. -/

/-- Outcomes of the external RTDE calls during one outer-loop
iteration.  `connectOk k` is whether the `k`-th `con.connect()` attempt
(0-based) leaves the transport connected; the four Booleans are the
results of `send_input_setup` (truthy?), `hasattr` on the two slider
fields, `send_output_setup` and `send_start`. -/
structure RtdeEnv where
  connectOk : Nat → Bool
  inputSetupOk : Bool
  hasMask : Bool
  hasFraction : Bool
  outputSetupOk : Bool
  startOk : Bool

/-- Observable protocol-level events of one outer-loop iteration. -/
inductive RtdeEvent where
  | inputSetup : RtdeEvent
  | setMask : ℚ → RtdeEvent
  | setFraction : ℚ → RtdeEvent
  | outputSetup : RtdeEvent
  | syncStart : RtdeEvent
  | receive : RtdeEvent
  | send : ℚ → RtdeEvent
  | sendPause : RtdeEvent
  | disconnect : RtdeEvent
deriving DecidableEq, Repr

/-- The fixed blocking waits of the two long-running loops. -/
inductive Wait where
  | pollerPoll : Wait        -- `poller.poll(100)`, line 242 (milliseconds)
  | cycleSleep : Wait        -- `time.sleep(1 / RTDE_FREQUENCY)`, line 175
  | connectRetrySleep : Wait -- `time.sleep(2)`, line 90
  | refusedBackoff : Wait    -- `time.sleep(10)`, line 179
  | errorBackoff : Wait      -- `time.sleep(5)`, line 182
  | cooldownSleep : Wait     -- `time.sleep(30)`, line 197
deriving DecidableEq, Repr

/-- Constant `RTDE_FREQUENCY = 100` Hz (line 24). -/
def RTDE_FREQUENCY : ℚ := 100

/-- Duration of each fixed wait, in seconds, from the source constants. -/
def waitDuration : Wait → ℚ
  | .pollerPoll => 1/10
  | .cycleSleep => 1 / RTDE_FREQUENCY
  | .connectRetrySleep => 2
  | .refusedBackoff => 10
  | .errorBackoff => 5
  | .cooldownSleep => 30

/-- Constant `MAX_RETRIES = 5` (line 77). -/
def MAX_RETRIES : Nat := 5

inductive ConnectOutcome where
  | connected : ConnectOutcome
  | refused : ConnectOutcome
deriving DecidableEq, Repr

/-- Body of the inner connection loop (lines 76–91), with the loop's
variant `remaining = MAX_RETRIES - retries` made explicit: `remaining
= 0` means `retries >= MAX_RETRIES` was seen at the top of the loop and
`ConnectionRefusedError` is raised.  Each failed attempt is followed by
`time.sleep(2)` and `retries += 1`.  Returns the final value of
`retries` (= the number of failed attempts = the number of 2 s sleeps)
and the outcome. -/
def connectLoopGo (connectOk : Nat → Bool) : Nat → Nat → Nat × ConnectOutcome
  | r, 0 => (r, .refused)
  | r, n + 1 => if connectOk r then (r, .connected)
      else connectLoopGo connectOk (r + 1) n

/-- The inner connection loop started at `retries = r`. -/
def connectLoopFrom (connectOk : Nat → Bool) (r : Nat) : Nat × ConnectOutcome :=
  connectLoopGo connectOk r (MAX_RETRIES - r)

/-- How the three handshake steps (lines 100–133) ended. -/
inductive HandshakeOutcome where
  | ok : HandshakeOutcome
  | inputFailed : HandshakeOutcome
  | outputFailed : HandshakeOutcome
  | startFailed : HandshakeOutcome
deriving DecidableEq, Repr

/-- The handshake (lines 100–133): `send_input_setup`, then the slider
field initializations (mask to 1, fraction to
`VELOCITY_OVER_3M_THRESHOLD`, lines 111–119), then `send_output_setup`,
then `send_start`.  A falsy result of any of the three protocol steps
raises, cutting the trace there. -/
def handshake (env : RtdeEnv) : List RtdeEvent × HandshakeOutcome :=
  if !env.inputSetupOk then ([.inputSetup], .inputFailed)
  else
    let initEvents : List RtdeEvent :=
      [RtdeEvent.inputSetup]
        ++ (if env.hasMask then [RtdeEvent.setMask 1] else [])
        ++ (if env.hasFraction
            then [RtdeEvent.setFraction VELOCITY_OVER_3M_THRESHOLD] else [])
    if !env.outputSetupOk then (initEvents ++ [.outputSetup], .outputFailed)
    else if !env.startOk then
      (initEvents ++ [.outputSetup, .syncStart], .startFailed)
    else (initEvents ++ [.outputSetup, .syncStart], .ok)

/-- Events and waits of the cyclic loop over a list of per-cycle
inputs; each cycle ends with the pacing sleep of line 175. -/
def cyclicTrace (hf : Bool) (s : ControllerState) :
    List (Bool × List PyFloat) → List RtdeEvent × List Wait × ControllerState
  | [] => ([], [], s)
  | inp :: rest =>
      let r := cycleWithInput hf s inp
      let evs : List RtdeEvent :=
        (if inp.1 then [RtdeEvent.receive] else [])
          ++ (if r.2 then [RtdeEvent.send r.1.previous_speed_fraction] else [])
      let rr := cyclicTrace hf r.1 rest
      (evs ++ rr.1, Wait.cycleSleep :: rr.2.1, rr.2.2)

/-- How one iteration of the outer reconnect loop ended. -/
inductive IterationResult where
  | exchanged : IterationResult
  | connectRefused : IterationResult
  | handshakeFailed : HandshakeOutcome → IterationResult
deriving DecidableEq, Repr

/-- Trace of one iteration of the outer loop: protocol events, fixed
sleeps, final controller state, and how it ended. -/
structure IterationTrace where
  events : List RtdeEvent
  waits : List Wait
  final : ControllerState
  result : IterationResult
deriving DecidableEq, Repr

/-- One full iteration of the outer reconnect loop (lines 71–197): the
inner connect loop; on connection the three-step handshake; on full
handshake success the cyclic exchange loop (cut off after
`cyclicInputs` by loss of connection or cancellation, line 136); the
`except` backoff sleeps (lines 179/182) and the `finally` block with
its best-effort `send_pause`/`disconnect` (run only while still
connected) and the unconditional 30 s cooldown sleep (line 197). -/
def rtdeIteration (env : RtdeEnv) (cyclicInputs : List (Bool × List PyFloat))
    (s : ControllerState) : IterationTrace :=
  let conn := connectLoopFrom env.connectOk 0
  match conn.2 with
  | .refused =>
      { events := [],
        waits := List.replicate conn.1 .connectRetrySleep
          ++ [.refusedBackoff, .cooldownSleep],
        final := s, result := .connectRefused }
  | .connected =>
      let hs := handshake env
      match hs.2 with
      | .ok =>
          let ct := cyclicTrace env.hasFraction s cyclicInputs
          { events := hs.1 ++ ct.1 ++ [.sendPause, .disconnect],
            waits := List.replicate conn.1 .connectRetrySleep
              ++ ct.2.1 ++ [.cooldownSleep],
            final := ct.2.2, result := .exchanged }
      | o =>
          { events := hs.1 ++ [.sendPause, .disconnect],
            waits := List.replicate conn.1 .connectRetrySleep
              ++ [.errorBackoff, .cooldownSleep],
            final := s, result := .handshakeFailed o }

/-- The top of the outer loop (line 70): the cancellation check is the
only exit; with the flag unset the full iteration runs again. -/
def outerStep (stopSet : Bool) (env : RtdeEnv)
    (cyclicInputs : List (Bool × List PyFloat)) (s : ControllerState) :
    Option IterationTrace :=
  if stopSet then none else some (rtdeIteration env cyclicInputs s)

/-! ## Python's `float()` builtin

`main` calls `float(...)` on the text after the first colon (line 250).
`float` is a language builtin; we model it exactly on its literal
grammar (optional sign; `inf`/`infinity`/`nan`, case-insensitive;
decimal digits with an optional point and an optional exponent),
returning the exact rational value instead of its binary64 rounding —
the rounding never changes any comparison or equality this program
performs on distinct decimal literals it receives.  Python strings are
embedded as their character lists. -/

def allDigits (cs : List Char) : Bool := cs.all Char.isDigit

def digitsVal (cs : List Char) : Nat :=
  cs.foldl (fun n c => 10 * n + (c.toNat - 48)) 0

/-- Exponent part after `e`: optional sign then nonempty digits. -/
def parseExponent : List Char → Option ℤ
  | '+' :: rest =>
      if rest ≠ [] && allDigits rest then some (digitsVal rest) else none
  | '-' :: rest =>
      if rest ≠ [] && allDigits rest then some (-(digitsVal rest : ℤ)) else none
  | rest =>
      if rest ≠ [] && allDigits rest then some (digitsVal rest) else none

/-- Mantissa: digits with at most one decimal point, at least one digit
somewhere (`1`, `1.`, `.5`, `1.5` are all valid Python float texts). -/
def parseMantissa (cs : List Char) : Option ℚ :=
  match cs.splitOn '.' with
  | [ip] => if ip ≠ [] && allDigits ip then some ((digitsVal ip : ℚ)) else none
  | [ip, fp] =>
      if (ip ≠ [] || fp ≠ []) && allDigits ip && allDigits fp then
        some ((digitsVal ip : ℚ) + (digitsVal fp : ℚ) / (10 : ℚ) ^ fp.length)
      else none
  | _ => none

/-- Python `str.strip()`: drop whitespace from both ends. -/
def trimChars (cs : List Char) : List Char :=
  ((cs.dropWhile Char.isWhitespace).reverse.dropWhile Char.isWhitespace).reverse

/-- Model of Python's `float(s)` on the characters of `s`: `none` when
`float` would raise `ValueError`. -/
def pyFloatOfChars (s : List Char) : Option PyFloat :=
  let t := (trimChars s).map Char.toLower
  let neg : Bool := t.head? = some '-'
  let body : List Char :=
    match t with
    | '+' :: rest => rest
    | '-' :: rest => rest
    | rest => rest
  if body = "inf".toList || body = "infinity".toList then
    some (if neg then .ninf else .inf)
  else if body = "nan".toList then some .nan
  else
    match body.splitOn 'e' with
    | [m] =>
        (parseMantissa m).map fun q => PyFloat.val (if neg then -q else q)
    | [m, ex] =>
        match parseMantissa m, parseExponent ex with
        | some q, some e =>
            some (.val (if neg then -(q * (10 : ℚ) ^ e) else q * (10 : ℚ) ^ e))
        | _, _ => none
    | _ => none

/-! ## The supervisor's stdout-line handling
(`SpeedControllerUDP.py` lines 246–261) -/

/-- What the `main` read loop does with one stdout line of the child. -/
inductive StdoutLineResult where
  | published : PyFloat → StdoutLineResult
  | malformedLine : StdoutLineResult
  | unknownLine : StdoutLineResult
deriving DecidableEq, Repr

/-- Whether the result put a sample in the queue. -/
def StdoutLineResult.publishes : StdoutLineResult → Bool
  | .published _ => true
  | _ => false

/-- Lines 247–261: a line with prefix `DISTANCE:` has
`float(line.strip().split(':')[1])` applied — the *first*
colon-separated field after the prefix; a `ValueError` is caught and
the line logged as malformed; any other line is logged as unknown
output.  (When the line starts with `DISTANCE:` the stripped line still
contains a colon, so `split(':')[1]` always exists; the `getD` default
is unreachable.)  No branch raises or exits the loop. -/
def handleStdoutLine (line : List Char) : StdoutLineResult :=
  if ("DISTANCE:".toList).isPrefixOf line then
    match pyFloatOfChars (((trimChars line).splitOn ':').getD 1 []) with
    | some d => .published d
    | none => .malformedLine
  else .unknownLine

/-- Modelled from the spec: a stdout line "matching `DISTANCE:<float>`"
(§6 line protocol) — the `DISTANCE:` marker followed by text that
parses as one float.  This is the claim's notion of a well-formed line,
used to compare against what `handleStdoutLine` does. -/
def matchesDistanceLine (line : List Char) : Bool :=
  ("DISTANCE:".toList).isPrefixOf line
    && (pyFloatOfChars ((trimChars line).drop 9)).isSome

/-- The distances the supervisor publishes to the queue over a sequence
of stdout lines; malformed and unknown lines contribute nothing and the
loop continues with the next line. -/
def supervisorPublished (lines : List (List Char)) : List PyFloat :=
  lines.filterMap fun l =>
    match handleStdoutLine l with
    | .published d => some d
    | _ => none

/-! ## The UDP decoder (`udp_listener.py` lines 70–93) -/

/-- Decode 4 bytes as a little-endian IEEE-754 single
(`struct.unpack('<f', data)`), exactly. -/
def decodeF32LE (bytes : List Nat) : PyFloat :=
  let bits : Nat := bytes.getD 0 0 % 256 + 256 * (bytes.getD 1 0 % 256)
    + 65536 * (bytes.getD 2 0 % 256) + 16777216 * (bytes.getD 3 0 % 256)
  let expo : Nat := bits / 2 ^ 23 % 256
  let frac : Nat := bits % 2 ^ 23
  let sign : ℚ := if bits / 2 ^ 31 = 1 then -1 else 1
  if expo = 255 then
    if frac = 0 then (if bits / 2 ^ 31 = 1 then .ninf else .inf) else .nan
  else if expo = 0 then .val (sign * frac / 2 ^ 149)
  else .val (sign * (2 ^ 23 + frac) * (2 : ℚ) ^ ((expo : ℤ) - 150))

/-- Lines 74–88: one received datagram payload.  `struct.calcsize('<f')`
is 4; a payload of exactly 4 bytes is decoded and emitted as a
`DISTANCE:` line; any other size is logged as malformed and dropped.
Returns the emitted distance, if any. -/
def udpHandlePacket (payload : List Nat) : Option PyFloat :=
  if payload.length = 4 then some (decodeF32LE payload) else none

/-- The distances the decoder loop emits on stdout for a sequence of
received payloads; a malformed payload emits nothing and the `while
True` reception loop continues with the next packet. -/
def udpEmittedDistances (payloads : List (List Nat)) : List PyFloat :=
  payloads.filterMap udpHandlePacket

/-- A concrete environment in which every `con.connect()` attempt
fails (the robot is unreachable); the other calls would succeed. -/
def envAllConnectFail : RtdeEnv :=
  { connectOk := fun _ => false, inputSetupOk := true, hasMask := true,
    hasFraction := true, outputSetupOk := true, startOk := true }

/-- A concrete environment in which the first connect attempt succeeds
and every handshake step succeeds; the recipe has
`speed_slider_fraction` but not `speed_slider_mask`. -/
def envOkNoMask : RtdeEnv :=
  { connectOk := fun _ => true, inputSetupOk := true, hasMask := false,
    hasFraction := true, outputSetupOk := true, startOk := true }

/-! ## Helper lemmas -/

/-- The range of `calculate_speed_fraction` is contained in `[0, 1]`
(each threshold constant is). -/
theorem speed_fraction_mem_range (d : PyFloat) :
    0 ≤ calculate_speed_fraction d ∧ calculate_speed_fraction d ≤ 1 := by
  unfold calculate_speed_fraction VELOCITY_OVER_3M_THRESHOLD VELOCITY_THRESHOLD_0_5M
    VELOCITY_THRESHOLD_1M VELOCITY_2M_THRESHOLD VELOCITY_3M_THRESHOLD
  split <;> [skip; split] <;> [norm_num; norm_num; skip]
  split <;> [norm_num; split] <;> [norm_num; split] <;> norm_num

theorem drainLoop_eq_getLastD (q : List PyFloat) (c : PyFloat) :
    drainLoop q c = q.getLastD c := by
  induction q generalizing c with
  | nil => rfl
  | cons d rest ih =>
      rw [drainLoop, ih, List.getLastD_cons]

theorem drainLoop_append_singleton (q : List PyFloat) (v c : PyFloat) :
    drainLoop (q ++ [v]) c = v := by
  induction q generalizing c with
  | nil => rfl
  | cons d rest ih => simpa [drainLoop] using ih d

theorem foldl_publish (vs : List PyFloat) (q : List PyFloat) :
    vs.foldl publish q = q ++ vs := by
  induction vs generalizing q with
  | nil => simp
  | cons v rest ih => simp [publish, ih]

/-- The banded table on ordinary rational inputs. -/
theorem speed_fraction_val_band (q : ℚ) :
    (q < 0 → calculate_speed_fraction (.val q) = 1)
    ∧ (0 ≤ q → q < 1 → calculate_speed_fraction (.val q) = 0)
    ∧ (1 ≤ q → q < 2 → calculate_speed_fraction (.val q) = 3/10)
    ∧ (2 ≤ q → q < 3 → calculate_speed_fraction (.val q) = 7/10)
    ∧ (3 ≤ q → q < 4 → calculate_speed_fraction (.val q) = 1)
    ∧ (4 ≤ q → calculate_speed_fraction (.val q) = 1) := by
  unfold calculate_speed_fraction
  simp only [PyFloat.lt, PyFloat.le, Bool.and_eq_true, decide_eq_true_eq,
    VELOCITY_OVER_3M_THRESHOLD, VELOCITY_THRESHOLD_0_5M, VELOCITY_THRESHOLD_1M,
    VELOCITY_2M_THRESHOLD, VELOCITY_3M_THRESHOLD]
  refine ⟨?_, ?_, ?_, ?_, ?_, ?_⟩
  · intro h
    rw [if_pos h]
  · intro h0 h1
    rw [if_neg (show ¬ q < 0 by linarith), if_pos h1]
  · intro h1 h2
    rw [if_neg (show ¬ q < 0 by linarith), if_neg (show ¬ q < 1 by linarith),
      if_pos (show 1 ≤ q ∧ q < 2 from ⟨h1, h2⟩)]
  · intro h1 h2
    rw [if_neg (show ¬ q < 0 by linarith), if_neg (show ¬ q < 1 by linarith),
      if_neg (show ¬ (1 ≤ q ∧ q < 2) by rintro ⟨_, _⟩; linarith),
      if_pos (show 2 ≤ q ∧ q < 3 from ⟨h1, h2⟩)]
  · intro h1 h2
    rw [if_neg (show ¬ q < 0 by linarith), if_neg (show ¬ q < 1 by linarith),
      if_neg (show ¬ (1 ≤ q ∧ q < 2) by rintro ⟨_, _⟩; linarith),
      if_neg (show ¬ (2 ≤ q ∧ q < 3) by rintro ⟨_, _⟩; linarith),
      if_pos (show 3 ≤ q ∧ q < 4 from ⟨h1, h2⟩)]
  · intro h
    rw [if_neg (show ¬ q < 0 by linarith), if_neg (show ¬ q < 1 by linarith),
      if_neg (show ¬ (1 ≤ q ∧ q < 2) by rintro ⟨_, _⟩; linarith),
      if_neg (show ¬ (2 ≤ q ∧ q < 3) by rintro ⟨_, _⟩; linarith),
      if_neg (show ¬ (3 ≤ q ∧ q < 4) by rintro ⟨_, _⟩; linarith)]

/-! ## Theorems for the claims -/

/-- C1: for every floating-point distance `d`,
`calculate_speed_fraction d` is total and deterministic (it is a Lean
function), returns a value in `[0, 1]`, and follows the banded table
with half-open bands (`d < 0 ↦ 1`, `0 ≤ d < 1 ↦ 0`, `1 ≤ d < 2 ↦
3/10`, `2 ≤ d < 3 ↦ 7/10`, `3 ≤ d < 4 ↦ 1`, `d ≥ 4 ↦ 1`), with exact
boundaries `1 ↦ 3/10`, `0.999999 ↦ 0`, `4 ↦ 1`. -/
theorem claim_C1_speed_fraction_table (d : PyFloat) :
    (0 ≤ calculate_speed_fraction d ∧ calculate_speed_fraction d ≤ 1)
    ∧ (d.lt (.val 0) = true → calculate_speed_fraction d = 1)
    ∧ (PyFloat.le (.val 0) d = true → d.lt (.val 1) = true →
        calculate_speed_fraction d = 0)
    ∧ (PyFloat.le (.val 1) d = true → d.lt (.val 2) = true →
        calculate_speed_fraction d = 3/10)
    ∧ (PyFloat.le (.val 2) d = true → d.lt (.val 3) = true →
        calculate_speed_fraction d = 7/10)
    ∧ (PyFloat.le (.val 3) d = true → d.lt (.val 4) = true →
        calculate_speed_fraction d = 1)
    ∧ (PyFloat.le (.val 4) d = true → calculate_speed_fraction d = 1)
    ∧ calculate_speed_fraction (.val 1) = 3/10
    ∧ calculate_speed_fraction (.val (999999/1000000)) = 0
    ∧ calculate_speed_fraction (.val 4) = 1 := by
  refine ⟨speed_fraction_mem_range d, ?_, ?_, ?_, ?_, ?_, ?_,
    (speed_fraction_val_band 1).2.2.1 (by norm_num) (by norm_num),
    (speed_fraction_val_band (999999/1000000)).2.1 (by norm_num) (by norm_num),
    (speed_fraction_val_band 4).2.2.2.2.2 (by norm_num)⟩
  · cases d with
    | nan => simp [PyFloat.lt]
    | inf => simp [PyFloat.lt]
    | ninf => simp [calculate_speed_fraction, PyFloat.lt, VELOCITY_OVER_3M_THRESHOLD]
    | val q =>
        intro h
        exact (speed_fraction_val_band q).1 (by simpa [PyFloat.lt] using h)
  · cases d with
    | nan => simp [PyFloat.le]
    | inf => intro _ h; simp [PyFloat.lt] at h
    | ninf => simp [PyFloat.le]
    | val q =>
        intro h1 h2
        exact (speed_fraction_val_band q).2.1 (by simpa [PyFloat.le] using h1)
          (by simpa [PyFloat.lt] using h2)
  · cases d with
    | nan => simp [PyFloat.le]
    | inf => intro _ h; simp [PyFloat.lt] at h
    | ninf => simp [PyFloat.le]
    | val q =>
        intro h1 h2
        exact (speed_fraction_val_band q).2.2.1 (by simpa [PyFloat.le] using h1)
          (by simpa [PyFloat.lt] using h2)
  · cases d with
    | nan => simp [PyFloat.le]
    | inf => intro _ h; simp [PyFloat.lt] at h
    | ninf => simp [PyFloat.le]
    | val q =>
        intro h1 h2
        exact (speed_fraction_val_band q).2.2.2.1 (by simpa [PyFloat.le] using h1)
          (by simpa [PyFloat.lt] using h2)
  · cases d with
    | nan => simp [PyFloat.le]
    | inf => intro _ h; simp [PyFloat.lt] at h
    | ninf => simp [PyFloat.le]
    | val q =>
        intro h1 h2
        exact (speed_fraction_val_band q).2.2.2.2.1 (by simpa [PyFloat.le] using h1)
          (by simpa [PyFloat.lt] using h2)
  · cases d with
    | nan => simp [PyFloat.le]
    | inf =>
        intro _
        simp [calculate_speed_fraction, PyFloat.lt, PyFloat.le,
          VELOCITY_OVER_3M_THRESHOLD]
    | ninf => simp [PyFloat.le]
    | val q =>
        intro h
        exact (speed_fraction_val_band q).2.2.2.2.2 (by simpa [PyFloat.le] using h)

/-- C1 witness: the interior point `1.5` satisfies its band bounds and
maps to `3/10`. -/
theorem claim_C1_witness :
    PyFloat.le (.val 1) (.val (3/2)) = true
    ∧ (PyFloat.val (3/2)).lt (.val 2) = true
    ∧ calculate_speed_fraction (.val (3/2)) = 3/10 := by
  have h1 : PyFloat.le (.val 1) (.val (3/2)) = true := by
    norm_num [PyFloat.le]
  have h2 : (PyFloat.val (3/2)).lt (.val 2) = true := by
    norm_num [PyFloat.lt]
  exact ⟨h1, h2, (claim_C1_speed_fraction_table (.val (3/2))).2.2.2.1 h1 h2⟩

/-- C2: publishing a sequence of values into the distance queue and
then consuming once (the drain loop) yields the most recently published
value (or leaves the consumer's value unchanged when nothing was
published); consuming twice with no intervening publish yields the same
value both times. -/
theorem claim_C2_freshness (prev : PyFloat) (vs : List PyFloat) :
    (consume_latest (vs.foldl publish []) prev).2 = vs.getLastD prev
    ∧ (consume_latest (consume_latest (vs.foldl publish []) prev).1
        ((consume_latest (vs.foldl publish []) prev).2)).2
      = (consume_latest (vs.foldl publish []) prev).2 := by
  have h : (consume_latest (vs.foldl publish []) prev).2 = vs.getLastD prev := by
    rw [consume_latest, foldl_publish, drainLoop_eq_getLastD]
    simp
  refine ⟨h, ?_⟩
  rw [consume_latest]
  rfl

/-- In a run whose cycles each receive a packet and each see exactly
one freshly published distance of fraction `f`, starting from a state
that already sent `f`, no further send happens. -/
theorem runCycles_all_equal (f : ℚ) (cd : PyFloat) (rest : List PyFloat)
    (hall : ∀ d ∈ rest, calculate_speed_fraction d = f) :
    (runCycles true ⟨cd, f, []⟩ (rest.map fun d => (true, [d]))).2
      = List.replicate rest.length false := by
  induction rest generalizing cd with
  | nil => rfl
  | cons d tail ih =>
      have hd : calculate_speed_fraction d = f := hall d (by simp)
      have hstep : cycleWithInput true ⟨cd, f, []⟩ (true, [d])
          = (⟨d, f, []⟩, false) := by
        simp [cycleWithInput, rtdeCycle, drainLoop, hd]
      simp only [List.map_cons, runCycles, hstep, List.length_cons]
      rw [ih d (fun x hx => hall x (by simp [hx]))]
      rfl

/-- C3: in the cyclic exchange loop (with the speed-throttle field
configured), a send occurs in a cycle iff the newly computed fraction
differs from the previously sent one; hence a maximal run of cycles
whose computed fractions all equal `f` issues exactly one transmission,
at the first cycle of the run. -/
theorem claim_C3_change_gating (s : ControllerState) (f : ℚ) (ds : List PyFloat)
    (hall : ∀ d ∈ ds, calculate_speed_fraction d = f)
    (hneq : f ≠ s.previous_speed_fraction)
    (hne : ds ≠ []) :
    ((rtdeCycle true s true).2 = true ↔
      calculate_speed_fraction (drainLoop s.queue s.current_distance)
        ≠ s.previous_speed_fraction)
    ∧ (runCycles true s (ds.map fun d => (true, [d]))).2
        = true :: List.replicate (ds.length - 1) false := by
  constructor
  · by_cases h : calculate_speed_fraction (drainLoop s.queue s.current_distance)
        = s.previous_speed_fraction
    · simp [rtdeCycle, h]
    · simp [rtdeCycle, h]
  · obtain ⟨d, rest, rfl⟩ : ∃ d rest, ds = d :: rest := by
      cases ds with
      | nil => exact absurd rfl hne
      | cons d rest => exact ⟨d, rest, rfl⟩
    have hd : calculate_speed_fraction d = f := hall d (by simp)
    have hstep : cycleWithInput true s (true, [d])
        = (⟨d, f, []⟩, true) := by
      simp [cycleWithInput, rtdeCycle, drainLoop_append_singleton, hd, hneq]
    simp only [List.map_cons, runCycles, hstep, List.length_cons]
    rw [runCycles_all_equal f d rest (fun x hx => hall x (by simp [hx]))]
    simp

/-- C3 witness: from the initial state, two consecutive cycles that
each publish distance `0.5` (fraction `0`) produce exactly one send, at
the first cycle. -/
theorem claim_C3_witness :
    (runCycles true initialControllerState
        ([PyFloat.val (1/2), PyFloat.val (1/2)].map fun d => (true, [d]))).2
      = [true, false] := by
  have hv : calculate_speed_fraction (PyFloat.val (1/2)) = 0 :=
    (speed_fraction_val_band (1/2)).2.1 (by norm_num) (by norm_num)
  have h := (claim_C3_change_gating initialControllerState 0
      [PyFloat.val (1/2), PyFloat.val (1/2)]
      (by
        intro x hx
        rcases List.mem_cons.mp hx with h1 | h1
        · rw [h1]; exact hv
        · rcases List.mem_cons.mp h1 with h2 | h2
          · rw [h2]; exact hv
          · simp at h2)
      (by norm_num [initialControllerState])
      (by simp)).2
  simpa using h

/-- C10: before any sample is published the controller's distance is
initialized to `-1.0`, whose fraction is `1.0` (full speed); the
previously-sent fraction starts at `-1.0`, outside the governor's range
`[0, 1]`, so on the first cycle that receives a state packet the
change-detection gate fires and a transmission occurs, whatever has
been published. -/
theorem claim_C10_initial_send (pubs : List PyFloat) :
    initialControllerState.current_distance = PyFloat.val (-1)
    ∧ initialControllerState.previous_speed_fraction = -1
    ∧ calculate_speed_fraction initialControllerState.current_distance = 1
    ∧ (∀ d : PyFloat, calculate_speed_fraction d ≠ -1)
    ∧ (cycleWithInput true initialControllerState (true, pubs)).2 = true := by
  have hrange : ∀ d : PyFloat, calculate_speed_fraction d ≠ -1 := by
    intro d h
    have := (speed_fraction_mem_range d).1
    rw [h] at this
    norm_num at this
  refine ⟨rfl, rfl, ?_, hrange, ?_⟩
  · exact (speed_fraction_val_band (-1)).1 (by norm_num)
  · have hne : calculate_speed_fraction (drainLoop pubs (PyFloat.val (-1)))
        ≠ (-1 : ℚ) := hrange _
    simp [cycleWithInput, rtdeCycle, initialControllerState, hne]

/-- The inner connect loop makes at most `r + n` failed attempts when
started at `retries = r` with `n` iterations left in its budget. -/
theorem connectLoopGo_attempts_le (ok : Nat → Bool) (n r : Nat) :
    (connectLoopGo ok r n).1 ≤ r + n := by
  induction n generalizing r with
  | zero => simp [connectLoopGo]
  | succ n ih =>
      by_cases h : ok r = true
      · rw [connectLoopGo, if_pos h]
        omega
      · rw [connectLoopGo, if_neg h]
        have := ih (r + 1)
        omega

/-- When every attempt in the budget fails, the loop exhausts the
budget and reports refusal. -/
theorem connectLoopGo_all_fail (ok : Nat → Bool) (n r : Nat)
    (h : ∀ i, i < r + n → ok i = false) :
    connectLoopGo ok r n = (r + n, .refused) := by
  induction n generalizing r with
  | zero => simp [connectLoopGo]
  | succ n ih =>
      have hr : ok r = false := h r (by omega)
      rw [connectLoopGo, if_neg (by simp [hr] : ¬ ok r = true)]
      rw [ih (r + 1) (fun i hi => h i (by omega))]
      congr 1
      omega

/-- C6: an outer-loop iteration makes at most `MAX_RETRIES = 5` inner
connect attempts with a fixed 2 s delay after each failure; exhausting
the budget yields a connection-refused outcome (not a process exit)
whose backoff waits are the 10 s refused backoff and the 30 s cooldown,
after which the outer loop runs again; the outer loop exits only when
the cancellation flag is observed set at its top. -/
theorem claim_C6_bounded_retries (env : RtdeEnv)
    (cyc : List (Bool × List PyFloat)) (s : ControllerState) :
    ((connectLoopFrom env.connectOk 0).1 ≤ MAX_RETRIES)
    ∧ ((∀ i, i < MAX_RETRIES → env.connectOk i = false) →
        connectLoopFrom env.connectOk 0 = (MAX_RETRIES, .refused)
        ∧ (rtdeIteration env cyc s).result = IterationResult.connectRefused
        ∧ (rtdeIteration env cyc s).waits
            = List.replicate MAX_RETRIES Wait.connectRetrySleep
                ++ [Wait.refusedBackoff, Wait.cooldownSleep])
    ∧ (∀ stopSet, outerStep stopSet env cyc s = none ↔ stopSet = true)
    ∧ outerStep false env cyc s = some (rtdeIteration env cyc s) := by
  refine ⟨?_, ?_, ?_, rfl⟩
  · simpa [connectLoopFrom] using connectLoopGo_attempts_le env.connectOk MAX_RETRIES 0
  · intro hfail
    have hc : connectLoopFrom env.connectOk 0 = (MAX_RETRIES, .refused) := by
      simpa [connectLoopFrom] using
        connectLoopGo_all_fail env.connectOk MAX_RETRIES 0 (by simpa using hfail)
    refine ⟨hc, ?_, ?_⟩ <;> simp [rtdeIteration, hc]
  · intro stopSet
    cases stopSet <;> simp [outerStep]

/-- C6 witness: with every connect attempt failing, the loop makes
exactly 5 failed attempts and the iteration ends connection-refused. -/
theorem claim_C6_witness :
    connectLoopFrom envAllConnectFail.connectOk 0 = (MAX_RETRIES, .refused)
    ∧ (rtdeIteration envAllConnectFail [] initialControllerState).result
      = IterationResult.connectRefused := by
  have h := (claim_C6_bounded_retries envAllConnectFail []
      initialControllerState).2.1 (fun i _ => rfl)
  exact ⟨h.1, h.2.1⟩

/-- The handshake trace never contains a cyclic-exchange event. -/
theorem handshake_no_exchange (env : RtdeEnv) :
    ∀ e ∈ (handshake env).1,
      e ≠ RtdeEvent.receive ∧ ∀ f, e ≠ RtdeEvent.send f := by
  have h : ((handshake env).1.all fun e =>
      match e with
      | RtdeEvent.receive => false
      | RtdeEvent.send _ => false
      | _ => true) = true := by
    obtain ⟨co, i, m, fr, o, st⟩ := env
    cases i <;> cases m <;> cases fr <;> cases o <;> cases st <;> rfl
  intro e he
  have he2 := List.all_eq_true.mp h e he
  cases e <;> simp_all

/-- C5: after the transport reports connected, the handshake performs
exactly the three protocol steps in order — input setup (with the
speed-throttle field initialized to full speed when the recipe has it,
before any cyclic send), output setup, sync start — and if any of the
three fails the iteration ends `handshakeFailed` with no cyclic
exchange event (no receive, no send) in its trace. -/
theorem claim_C5_handshake_order (env : RtdeEnv)
    (cyc : List (Bool × List PyFloat)) (s : ControllerState)
    (hconn : (connectLoopFrom env.connectOk 0).2 = ConnectOutcome.connected) :
    (env.inputSetupOk = true → env.outputSetupOk = true → env.startOk = true →
      (handshake env).1
        = [RtdeEvent.inputSetup]
            ++ (if env.hasMask then [RtdeEvent.setMask 1] else [])
            ++ (if env.hasFraction then [RtdeEvent.setFraction 1] else [])
            ++ [RtdeEvent.outputSetup, RtdeEvent.syncStart]
      ∧ (rtdeIteration env cyc s).result = IterationResult.exchanged)
    ∧ (∀ f, RtdeEvent.send f ∉ (handshake env).1)
    ∧ ((env.inputSetupOk = false ∨ env.outputSetupOk = false ∨ env.startOk = false) →
        (∃ o, o ≠ HandshakeOutcome.ok
          ∧ (rtdeIteration env cyc s).result = IterationResult.handshakeFailed o)
        ∧ ∀ e ∈ (rtdeIteration env cyc s).events,
            e ≠ RtdeEvent.receive ∧ ∀ f, e ≠ RtdeEvent.send f) := by
  rcases hc : connectLoopFrom env.connectOk 0 with ⟨n, out⟩
  rw [hc] at hconn
  simp only at hconn
  subst hconn
  refine ⟨?_, fun f => by
    intro hmem
    exact ((handshake_no_exchange env (RtdeEvent.send f) hmem).2 f) rfl, ?_⟩
  · intro hi ho hs
    obtain ⟨co, i, m, fr, o, st⟩ := env
    simp only at hi ho hs
    subst hi; subst ho; subst hs
    constructor
    · simp [handshake, VELOCITY_OVER_3M_THRESHOLD]
    · simp [rtdeIteration, hc, handshake]
  · intro hfail
    have hout : (handshake env).2 ≠ HandshakeOutcome.ok := by
      obtain ⟨co, i, m, fr, o, st⟩ := env
      cases i <;> cases o <;> cases st <;> simp_all [handshake]
    rcases hhs : handshake env with ⟨evs, hsOut⟩
    rw [hhs] at hout
    simp only at hout
    have hiter : rtdeIteration env cyc s
        = { events := evs ++ [RtdeEvent.sendPause, RtdeEvent.disconnect],
            waits := List.replicate n Wait.connectRetrySleep
              ++ [Wait.errorBackoff, Wait.cooldownSleep],
            final := s, result := IterationResult.handshakeFailed hsOut } := by
      cases hsOut with
      | ok => exact absurd rfl hout
      | inputFailed => simp [rtdeIteration, hc, hhs]
      | outputFailed => simp [rtdeIteration, hc, hhs]
      | startFailed => simp [rtdeIteration, hc, hhs]
    constructor
    · exact ⟨hsOut, hout, by rw [hiter]⟩
    · intro e he
      rw [hiter] at he
      simp only [List.mem_append, List.mem_cons, List.not_mem_nil,
        or_false] at he
      rcases he with he | he
      · exact handshake_no_exchange env e (by rw [hhs]; exact he)
      · rcases he with rfl | rfl <;> simp

/-- C5 witness: with a reachable robot, the speed-fraction field in the
recipe, and all steps succeeding, the handshake trace is input setup,
fraction initialized to 1, output setup, sync start, and the iteration
reaches cyclic exchange. -/
theorem claim_C5_witness :
    (handshake envOkNoMask).1
      = [RtdeEvent.inputSetup, RtdeEvent.setFraction 1,
         RtdeEvent.outputSetup, RtdeEvent.syncStart]
    ∧ (rtdeIteration envOkNoMask [] initialControllerState).result
      = IterationResult.exchanged := by
  have h := (claim_C5_handshake_order envOkNoMask [] initialControllerState
      (by rfl)).1 rfl rfl rfl
  exact ⟨by simpa [envOkNoMask] using h.1, h.2⟩

/-- C4 counterexample: the 30 s cooldown sleep is a suspension point of
the Protocol Session Controller's outer loop (it occurs in the trace of
an iteration whose connect attempts all fail) and its duration exceeds
the 100 ms polling-interval class, so cancellation set during it is not
observed within one polling interval. -/
theorem claim_C4_counterexample :
    Wait.cooldownSleep
      ∈ (rtdeIteration envAllConnectFail [] initialControllerState).waits
    ∧ ¬ (waitDuration Wait.cooldownSleep ≤ 1/10) := by
  constructor
  · simp [rtdeIteration, connectLoopFrom, connectLoopGo, MAX_RETRIES,
      envAllConnectFail]
  · norm_num [waitDuration]

/-- C4 amended: the Ingestion Supervisor's only blocking wait
(`poller.poll(100)`) and the cyclic pacing sleep (10 ms) are within the
100 ms polling class, so those two loops observe cancellation within
one polling interval; but the fixed connect-retry (2 s), error backoff
(5 s), refused backoff (10 s) and cooldown (30 s) sleeps of the RTDE
outer loop all exceed 100 ms and are not interruptible, so after a
failed iteration the outer loop reaches its next cancellation check
only after those sleeps elapse; the outer loop still exits exactly when
the flag is observed set at its top. -/
theorem claim_C4_amended :
    waitDuration Wait.pollerPoll = 1/10
    ∧ waitDuration Wait.cycleSleep = 1/100
    ∧ waitDuration Wait.connectRetrySleep = 2
    ∧ waitDuration Wait.errorBackoff = 5
    ∧ waitDuration Wait.refusedBackoff = 10
    ∧ waitDuration Wait.cooldownSleep = 30
    ∧ waitDuration Wait.pollerPoll ≤ 1/10
    ∧ waitDuration Wait.cycleSleep ≤ 1/10
    ∧ (1/10 : ℚ) < waitDuration Wait.connectRetrySleep
    ∧ (1/10 : ℚ) < waitDuration Wait.errorBackoff
    ∧ (1/10 : ℚ) < waitDuration Wait.refusedBackoff
    ∧ (1/10 : ℚ) < waitDuration Wait.cooldownSleep
    ∧ (rtdeIteration envAllConnectFail [] initialControllerState).waits
        = List.replicate MAX_RETRIES Wait.connectRetrySleep
            ++ [Wait.refusedBackoff, Wait.cooldownSleep]
    ∧ (∀ stopSet env cyc s, outerStep stopSet env cyc s = none ↔ stopSet = true) := by
  refine ⟨?_, ?_, ?_, ?_, ?_, ?_, ?_, ?_, ?_, ?_, ?_, ?_, ?_,
    fun stopSet env cyc s => by cases stopSet <;> simp [outerStep]⟩
  all_goals first
    | decide
    | norm_num [waitDuration, RTDE_FREQUENCY]

/-- C7 counterexample: the line `DISTANCE:1:2` does not match
`DISTANCE:<float>` (the text after the prefix, `1:2`, is not a float),
yet the supervisor does not discard it — it publishes `1.0`, because
the code parses only the first colon-separated field after the
prefix. -/
theorem claim_C7_counterexample :
    matchesDistanceLine ("DISTANCE:1:2\n".toList) = false
    ∧ handleStdoutLine ("DISTANCE:1:2\n".toList)
      = StdoutLineResult.published (.val 1) := by
  exact ⟨by decide, by decide⟩

/-- C7 amended: a UDP payload whose length is not 4 bytes is discarded
(no distance emitted) and the reception loop continues; a stdout line
without the `DISTANCE:` prefix is discarded as unknown without a
publish; a line with the prefix has Python `float()` applied to the
*first* colon-separated field after the prefix — if that field parses,
its value is published (even when the full remainder is not a float),
and if it does not parse the line is discarded as malformed; in every
case the supervisor continues with the remaining lines and never
terminates. -/
theorem claim_C7_amended (payload : List Nat) (rest : List (List Nat))
    (line : List Char) (restLines : List (List Char)) :
    (payload.length ≠ 4 →
      udpHandlePacket payload = none
      ∧ udpEmittedDistances (payload :: rest) = udpEmittedDistances rest)
    ∧ (("DISTANCE:".toList).isPrefixOf line = false →
        handleStdoutLine line = StdoutLineResult.unknownLine
        ∧ supervisorPublished (line :: restLines) = supervisorPublished restLines)
    ∧ (("DISTANCE:".toList).isPrefixOf line = true →
        pyFloatOfChars (((trimChars line).splitOn ':').getD 1 []) = none →
        handleStdoutLine line = StdoutLineResult.malformedLine
        ∧ supervisorPublished (line :: restLines) = supervisorPublished restLines)
    ∧ (∀ d, ("DISTANCE:".toList).isPrefixOf line = true →
        pyFloatOfChars (((trimChars line).splitOn ':').getD 1 []) = some d →
        handleStdoutLine line = StdoutLineResult.published d
        ∧ supervisorPublished (line :: restLines)
          = d :: supervisorPublished restLines) := by
  refine ⟨?_, ?_, ?_, ?_⟩
  · intro hlen
    have h : udpHandlePacket payload = none := by
      simp [udpHandlePacket, hlen]
    exact ⟨h, by simp [udpEmittedDistances, h]⟩
  · intro hpre
    have h : handleStdoutLine line = StdoutLineResult.unknownLine := by
      unfold handleStdoutLine
      rw [if_neg (by rw [hpre]; simp)]
    exact ⟨h, by simp [supervisorPublished, h]⟩
  · intro hpre hparse
    have h : handleStdoutLine line = StdoutLineResult.malformedLine := by
      unfold handleStdoutLine
      rw [if_pos hpre, hparse]
    exact ⟨h, by simp [supervisorPublished, h]⟩
  · intro d hpre hparse
    have h : handleStdoutLine line = StdoutLineResult.published d := by
      unfold handleStdoutLine
      rw [if_pos hpre, hparse]
    exact ⟨h, by simp [supervisorPublished, h]⟩

/-- C7 witness: a 3-byte payload is dropped with the loop continuing, a
wrong-prefix line is unknown, an unparsable-field line is malformed,
and a well-formed line publishes its value. -/
theorem claim_C7_witness :
    (udpHandlePacket [0, 0, 0] = none
      ∧ udpEmittedDistances [[0, 0, 0]] = udpEmittedDistances [])
    ∧ handleStdoutLine ("hello\n".toList) = StdoutLineResult.unknownLine
    ∧ handleStdoutLine ("DISTANCE:abc\n".toList) = StdoutLineResult.malformedLine
    ∧ handleStdoutLine ("DISTANCE:7\n".toList)
      = StdoutLineResult.published (.val 7) := by
  refine ⟨(claim_C7_amended [0, 0, 0] [] [] []).1 (by decide),
    ((claim_C7_amended [] [] ("hello\n".toList) []).2.1 (by decide)).1,
    ((claim_C7_amended [] [] ("DISTANCE:abc\n".toList) []).2.2.1 (by decide)
      (by decide)).1,
    ((claim_C7_amended [] [] ("DISTANCE:7\n".toList) []).2.2.2 (.val 7)
      (by decide) (by decide)).1⟩

/-- C8 counterexample: the distance queue is not a single
current-value slot — two publishes with no intervening consume leave
two stored samples, and publishing does not replace the stored value. -/
theorem claim_C8_counterexample :
    (publish (publish [] (.val 1)) (.val 2)).length = 2
    ∧ publish (publish [] (.val 1)) (.val 2) ≠ [PyFloat.val 2] := by
  exact ⟨rfl, by decide⟩

/-- C8 amended: the distance queue is an unbounded FIFO: each publish
appends one element, `n` publishes with no consume leave `n` stored
samples, and freshness is obtained at consume time — the drain loop
empties the backlog and keeps only the newest value. -/
theorem claim_C8_amended (q : List PyFloat) (v prev : PyFloat)
    (vs : List PyFloat) :
    (publish q v).length = q.length + 1
    ∧ (vs.foldl publish []).length = vs.length
    ∧ (consume_latest (vs.foldl publish []) prev).1 = []
    ∧ (consume_latest (vs.foldl publish []) prev).2 = vs.getLastD prev := by
  refine ⟨by simp [publish], by simp [foldl_publish], rfl, ?_⟩
  rw [consume_latest, foldl_publish, drainLoop_eq_getLastD]
  simp

/-- C9 counterexample: `nan` is an undefined input for which every
comparison is false, so it does not fall into the `d < 0` branch — it
takes the final `else` branch (branch 5). -/
theorem claim_C9_counterexample :
    PyFloat.isNan .nan = true
    ∧ speed_fraction_branch .nan ≠ 0
    ∧ speed_fraction_branch .nan = 5 := by
  exact ⟨rfl, by decide, by decide⟩

/-- C9 amended: `calculate_speed_fraction` performs no clamping or
validation beyond the table; every NaN or negative input yields `1.0`,
negative inputs through the `d < 0` branch and NaN through the final
`else` branch (which returns the same constant). -/
theorem claim_C9_amended (d : PyFloat)
    (h : d.isNan = true ∨ d.lt (.val 0) = true) :
    calculate_speed_fraction d = 1
    ∧ (d.lt (.val 0) = true → speed_fraction_branch d = 0)
    ∧ (d.isNan = true → speed_fraction_branch d = 5) := by
  cases d with
  | nan =>
      refine ⟨?_, ?_, ?_⟩ <;>
        simp [calculate_speed_fraction, speed_fraction_branch, PyFloat.lt,
          PyFloat.le, VELOCITY_OVER_3M_THRESHOLD]
  | inf =>
      rcases h with h | h <;> simp [PyFloat.isNan, PyFloat.lt] at h
  | ninf =>
      refine ⟨?_, ?_, ?_⟩ <;>
        simp [calculate_speed_fraction, speed_fraction_branch, PyFloat.lt,
          PyFloat.isNan, VELOCITY_OVER_3M_THRESHOLD]
  | val q =>
      rcases h with h | h
      · simp [PyFloat.isNan] at h
      · have hq : q < 0 := by simpa [PyFloat.lt] using h
        refine ⟨(speed_fraction_val_band q).1 hq, ?_, ?_⟩
        · intro _
          simp [speed_fraction_branch, PyFloat.lt, hq]
        · intro hn
          simp [PyFloat.isNan] at hn

/-- C9 witness: `nan` and `-5.0` both map to full speed, through the
else branch and the `d < 0` branch respectively. -/
theorem claim_C9_witness :
    calculate_speed_fraction .nan = 1
    ∧ speed_fraction_branch .nan = 5
    ∧ calculate_speed_fraction (.val (-5)) = 1
    ∧ speed_fraction_branch (.val (-5)) = 0 := by
  have h1 := claim_C9_amended .nan (Or.inl rfl)
  have h2 := claim_C9_amended (.val (-5)) (Or.inr (by decide))
  exact ⟨h1.1, h1.2.2 rfl, h2.1, h2.2.1 (by decide)⟩

